import Mathlib

/-!
Shallow embedding of the command-lifecycle core of the `salpytools`
library (files `python/lsst/ts/salpytools/salpylib.py` and
`python/salpytools/states.py`).

The embedding keeps the Python names where Lean allows it.  Python
exceptions are modelled with `Except PyError`; the shared
`cmd_responses` dictionary of `DDSSend` is modelled as a function from
command ids to optional entries; the blocking wait loops of
`DDSSend.waitForCompletion` / `DDSSend.waitForInProgress` are modelled
by structural recursion over a finite trace of loop iterations
(`wakeups`), where each iteration carries the result of
`event.wait` and a snapshot of the ack history at that moment, and the
exhaustion of the trace models the expiry of the timeout.
-/

namespace Salpytools

/-- SAL command-acknowledgement code constants (salpylib.py lines 33-41). -/
def SAL__CMD_ABORTED : Int := -303

def SAL__CMD_ACK : Int := 300

def SAL__CMD_COMPLETE : Int := 303

def SAL__CMD_FAILED : Int := -302

def SAL__CMD_INPROGRESS : Int := 301

def SAL__CMD_NOACK : Int := -301

def SAL__CMD_NOPERM : Int := -300

def SAL__CMD_STALLED : Int := 302

def SAL__CMD_TIMEOUT : Int := -304

/-- Python exceptions that the embedded code can raise. -/
inductive PyError where
  | keyError
  | indexError
  | attributeError
  | valueError
  deriving DecidableEq

/-- One acknowledgement triple `(self.ack.ack, self.ack.error, self.ack.result)`
as appended by `DDSSend.run` (salpylib.py lines 733-734). -/
structure Ack where
  ack : Int
  error : Int
  result : String
  deriving DecidableEq

/-- One value of the `cmd_responses` dictionary of `DDSSend`:
`{'cmd': cmd, 'ack': [], 'event': threading.Event()}`
(salpylib.py lines 777-779).  The `event` field is `true` when the
threading event is set. -/
structure Entry where
  cmd : String
  ack : List Ack
  event : Bool
  deriving DecidableEq

/-- The `cmd_responses` dictionary of `DDSSend`, as a map from command id
to the entry stored for it. -/
def Registry : Type := Int → Option Entry

/-- The empty `cmd_responses` dictionary. -/
def emptyRegistry : Registry := fun _ => none

/-- The registration step of `DDSSend.send_Command` (salpylib.py lines
777-780): `self.cmd_responses[cmdid] = {'cmd': cmd, 'ack': [], 'event': ...}`
followed by `event.clear()`.  A reused id silently overwrites the old
entry. -/
def send_Command_register (reg : Registry) (cmdid : Int) (cmd : String) : Registry :=
  fun i => if i = cmdid then some { cmd := cmd, ack := [], event := false } else reg i

/-- The delivery step of one iteration of `DDSSend.run` (salpylib.py lines
731-735): if the polled response id is in `cmd_responses`, append the ack
triple to that entry's history and set that entry's event; otherwise the
response is dropped and the dictionary is unchanged. -/
def run_observe (reg : Registry) (response : Int) (a : Ack) : Registry :=
  match reg response with
  | none => reg
  | some e =>
      fun i =>
        if i = response then
          some { cmd := e.cmd, ack := e.ack ++ [a], event := true }
        else reg i

/-- The clearing step at the end of one iteration of `DDSSend.run`
(salpylib.py lines 739-740): every entry's event is cleared. -/
def run_clear_events (reg : Registry) : Registry :=
  fun i =>
    match reg i with
    | none => none
    | some e => some { cmd := e.cmd, ack := e.ack, event := false }

/-- The while-loop of `DDSSend.waitForCompletion` (salpylib.py lines
821-834).  Each element of `wakeups` is one iteration inside the timeout
window: the boolean is the value returned by `event.wait` and the list is
the snapshot of the entry's ack history read by `ack[-1]` at that
iteration (indexing an empty history raises `IndexError`).  The loop stops
with `(cmdid, ack)` at the first iteration whose last ack code differs
from both `SAL__CMD_ACK` and `SAL__CMD_INPROGRESS`; when the trace is
exhausted the timeout has elapsed and the sentinel `(-1, ())` is
returned, modelled as `(-1, none)`. -/
def waitLoop_completion (cmdid : Int) : List (Bool × List Ack) → Except PyError (Int × Option Ack)
  | [] => Except.ok (-1, none)
  | (got, hist) :: rest =>
      if got then
        match hist.getLast? with
        | none => Except.error PyError.indexError
        | some a =>
            if a.ack ≠ SAL__CMD_ACK ∧ a.ack ≠ SAL__CMD_INPROGRESS then
              Except.ok (cmdid, some a)
            else waitLoop_completion cmdid rest
      else waitLoop_completion cmdid rest

/-- `DDSSend.waitForCompletion` (salpylib.py lines 789-834).  For an id
that is not in `cmd_responses` the code evaluates
`IOError('Unknown command ...')` WITHOUT raising it, and then crashes with
`KeyError` on the next line, which subscripts
`self.cmd_responses[cmdid]['cmd']` inside a debug-log call.  For a known
id whose last recorded ack code is neither `SAL__CMD_ACK` nor
`SAL__CMD_INPROGRESS` it returns `(cmdid, ack)` immediately; otherwise it
enters the wait loop. -/
def waitForCompletion (reg : Registry) (cmdid : Int) (wakeups : List (Bool × List Ack)) :
    Except PyError (Int × Option Ack) :=
  match reg cmdid with
  | none => Except.error PyError.keyError
  | some entry =>
      match entry.ack.getLast? with
      | some a =>
          if a.ack ≠ SAL__CMD_ACK ∧ a.ack ≠ SAL__CMD_INPROGRESS then
            Except.ok (cmdid, some a)
          else waitLoop_completion cmdid wakeups
      | none => waitLoop_completion cmdid wakeups

/-- The while-loop of `DDSSend.waitForInProgress` (salpylib.py lines
868-882): identical to `waitLoop_completion` except that the stopping
predicate is only `ack[0] != SAL__CMD_ACK`. -/
def waitLoop_inprogress (cmdid : Int) : List (Bool × List Ack) → Except PyError (Int × Option Ack)
  | [] => Except.ok (-1, none)
  | (got, hist) :: rest =>
      if got then
        match hist.getLast? with
        | none => Except.error PyError.indexError
        | some a =>
            if a.ack ≠ SAL__CMD_ACK then
              Except.ok (cmdid, some a)
            else waitLoop_inprogress cmdid rest
      else waitLoop_inprogress cmdid rest

/-- `DDSSend.waitForInProgress` (salpylib.py lines 836-882).  Same shape
as `waitForCompletion`, with blocking predicate `ack[0] == SAL__CMD_ACK`,
and the same unraised `IOError` followed by a `KeyError` crash for an
unknown id. -/
def waitForInProgress (reg : Registry) (cmdid : Int) (wakeups : List (Bool × List Ack)) :
    Except PyError (Int × Option Ack) :=
  match reg cmdid with
  | none => Except.error PyError.keyError
  | some entry =>
      match entry.ack.getLast? with
      | some a =>
          if a.ack ≠ SAL__CMD_ACK then
            Except.ok (cmdid, some a)
          else waitLoop_inprogress cmdid wakeups
      | none => waitLoop_inprogress cmdid wakeups

/-- The possible outcomes of `self.context.execute_command(...)` as seen
by `DDSController.reply_to_transition`: a normal return of
`(err, message)`, a raised `StateTransitionException`, or any other
raised exception, identified by its class name. -/
inductive ExecResult where
  | ok (err : Int) (message : String)
  | stateTransitionExc
  | otherExc (className : String)
  deriving DecidableEq

/-- `DDSController.reply_to_transition` (salpylib.py lines 174-207): the
sequence of acks sent for the command id, in order.  It always sends
`SAL__CMD_INPROGRESS` first; a `StateTransitionException` is converted to
a `SAL__CMD_NOPERM` ack with the fixed message; any other exception to a
`SAL__CMD_FAILED` ack naming the exception class and the command; a
normal return `(err, message)` to a `SAL__CMD_COMPLETE` ack with exactly
that pair.  Every exception is caught, so the function is total. -/
def reply_to_transition (cOMMAND : String) (res : ExecResult) : List Ack :=
  { ack := SAL__CMD_INPROGRESS, error := 0, result := "Starting: OK" } ::
    match res with
    | ExecResult.ok err message =>
        [{ ack := SAL__CMD_COMPLETE, error := err, result := message }]
    | ExecResult.stateTransitionExc =>
        [{ ack := SAL__CMD_NOPERM, error := 1, result := "State transition not allowed." }]
    | ExecResult.otherExc className =>
        [{ ack := SAL__CMD_FAILED, error := 1,
           result := className ++ " exception occurred when running " ++ cOMMAND ++ "." }]

/-- One iteration of the polling loop `DDSController.run_command`
(salpylib.py lines 155-168), together with the acks later produced by the
execution thread it may spawn.  Returns the ordered list of acks emitted
for the accepted command id and whether a new execution thread was
started.  A non-positive `cmdId` emits nothing.  A positive `cmdId` is
first acknowledged with `SAL__CMD_ACK` ("Command received : OK"); if the
previous reply thread is still alive (`busy`), a `SAL__CMD_NOPERM` ack
follows and no execution starts; otherwise the spawned thread runs
`reply_to_transition`. -/
def run_command_iter (busy : Bool) (cmdId : Int) (cOMMAND : String) (res : ExecResult) :
    List Ack × Bool :=
  if cmdId > 0 then
    if busy then
      ([{ ack := SAL__CMD_ACK, error := 0, result := "Command received : OK" },
        { ack := SAL__CMD_NOPERM, error := -1, result := "Still replying to a previous command!" }],
       false)
    else
      ({ ack := SAL__CMD_ACK, error := 0, result := "Command received : OK" } ::
        reply_to_transition cOMMAND res, true)
  else ([], false)

/-- The static transition matrix of states.py (lines 66-88): a 7 x 7
boolean matrix over the state indices OFFLINE = 0, STANDBY = 1,
DISABLE = 2, ENABLE = 3, FAULT = 4, INITIAL = 5, FINAL = 6, built from
all-False by the twelve explicit assignments and the seven diagonal
(self-transition) assignments. -/
def state_matrix : Nat → Nat → Bool
  | 0, 6 => true
  | 0, 1 => true
  | 1, 6 => true
  | 1, 0 => true
  | 1, 2 => true
  | 1, 4 => true
  | 2, 1 => true
  | 2, 3 => true
  | 2, 4 => true
  | 3, 2 => true
  | 3, 4 => true
  | 5, 1 => true
  | 0, 0 => true
  | 1, 1 => true
  | 2, 2 => true
  | 3, 3 => true
  | 4, 4 => true
  | 5, 5 => true
  | 6, 6 => true
  | _, _ => false

/-- The `state_enumeration` dictionary of states.py (lines 36-43). -/
def state_enumeration : String → Option Nat
  | "OFFLINE" => some 0
  | "STANDBY" => some 1
  | "DISABLE" => some 2
  | "ENABLE" => some 3
  | "FAULT" => some 4
  | "INITIAL" => some 5
  | "FINAL" => some 6
  | _ => none

/-- The state-notification lookup performed by
`DefaultState.send_logEvent` for the `SummaryState` event (states.py line
142): `state_enumeration[self.name]`, which raises `KeyError` when the
handler's name is not a key of the dictionary. -/
def send_logEvent_SummaryState (name : String) : Except PyError Nat :=
  match state_enumeration name with
  | some v => Except.ok v
  | none => Except.error PyError.keyError

/-- The `name` passed by `DisabledState.__init__` (states.py line 213). -/
def DisabledState_name : String := "DISABLED"

/-- The `name` passed by `EnabledState.__init__` (states.py line 236). -/
def EnabledState_name : String := "ENABLED"

/-- The argument handling of `DDSController.__init__` (salpylib.py lines
74-96): reject with `ValueError` only when both `command` and `topic` are
`None`; then evaluate `self.command.upper()`, which raises
`AttributeError` when `command` is `None`; finally derive the topic from
the command when `topic` is falsy (either `None` or the empty string).
On success it returns `(COMMAND, topic, command)`. -/
def DDSController_init (subsystem_tag : String) (command topic : Option String) :
    Except PyError (String × String × String) :=
  if command = none ∧ topic = none then Except.error PyError.valueError
  else
    match command with
    | none => Except.error PyError.attributeError
    | some c =>
        let cOMMAND := c.toUpper
        let top :=
          match topic with
          | none => subsystem_tag ++ "_command_" ++ c
          | some t => if t = "" then subsystem_tag ++ "_command_" ++ c else t
        Except.ok (cOMMAND, top, c)

/-- The statement of claim C3 as written: in the static matrix, FAULT is
reachable from DISABLED and ENABLED, the only state reachable back out of
FAULT (other than staying in FAULT) is STANDBY, and no state other than
DISABLED and ENABLED can enter FAULT. -/
def C3_claim_prop : Prop :=
  state_matrix 2 4 = true ∧ state_matrix 3 4 = true ∧ state_matrix 4 1 = true ∧
  (∀ j : Fin 7, state_matrix 4 j.val = true → j.val = 1 ∨ j.val = 4) ∧
  (∀ i : Fin 7, state_matrix i.val 4 = true → i.val = 2 ∨ i.val = 3 ∨ i.val = 4)

/-- Any ack returned by the completion wait loop has a code that is
neither `SAL__CMD_ACK` nor `SAL__CMD_INPROGRESS`. -/
theorem waitLoop_completion_ok_code (cmdid : Int) (w : List (Bool × List Ack)) :
    ∀ (r : Int × Option Ack) (a : Ack),
      waitLoop_completion cmdid w = Except.ok r → r.2 = some a →
      a.ack ≠ SAL__CMD_ACK ∧ a.ack ≠ SAL__CMD_INPROGRESS := by
  induction w with
  | nil =>
      intro r a h h2
      simp only [waitLoop_completion, Except.ok.injEq] at h
      rw [← h] at h2
      simp at h2
  | cons p rest ih =>
      intro r a h h2
      obtain ⟨got, hist⟩ := p
      simp only [waitLoop_completion] at h
      split at h
      · split at h
        · exact absurd h (by simp)
        · rename_i b hL
          split at h
          · rename_i hb
            rw [Except.ok.injEq] at h
            rw [← h] at h2
            simp only at h2
            rw [Option.some.injEq] at h2
            rw [← h2]
            exact hb
          · exact ih r a h h2
      · exact ih r a h h2

/-- When every wakeup of the trace only ever shows ack codes
`SAL__CMD_ACK` or `SAL__CMD_INPROGRESS`, the completion wait loop runs the
whole trace and returns the timeout sentinel. -/
theorem waitLoop_completion_timeout (cmdid : Int) (w : List (Bool × List Ack))
    (hw : ∀ p ∈ w, p.1 = true → p.2 ≠ [] ∧
      ∀ a ∈ p.2, a.ack = SAL__CMD_ACK ∨ a.ack = SAL__CMD_INPROGRESS) :
    waitLoop_completion cmdid w = Except.ok (-1, none) := by
  induction w with
  | nil => rfl
  | cons p rest ih =>
      obtain ⟨got, hist⟩ := p
      have hrest : ∀ p ∈ rest, p.1 = true → p.2 ≠ [] ∧
          ∀ a ∈ p.2, a.ack = SAL__CMD_ACK ∨ a.ack = SAL__CMD_INPROGRESS :=
        fun q hq => hw q (List.mem_cons_of_mem _ hq)
      cases got with
      | false => exact ih hrest
      | true =>
          obtain ⟨hne, hall⟩ := hw (true, hist) (List.mem_cons_self _ _) rfl
          cases hL : hist.getLast? with
          | none => exact absurd (List.getLast?_eq_none_iff.mp hL) hne
          | some b =>
              have hb : b.ack = SAL__CMD_ACK ∨ b.ack = SAL__CMD_INPROGRESS :=
                hall b (List.mem_of_getLast?_eq_some hL)
              simp only [waitLoop_completion, if_true]
              rw [hL]
              show (if b.ack ≠ SAL__CMD_ACK ∧ b.ack ≠ SAL__CMD_INPROGRESS then
                      Except.ok (cmdid, some b)
                    else waitLoop_completion cmdid rest) = Except.ok (-1, none)
              rw [if_neg (fun hc => hb.elim hc.1 hc.2)]
              exact ih hrest

/-- Any ack returned by the in-progress wait loop has a code that is not
`SAL__CMD_ACK`. -/
theorem waitLoop_inprogress_ok_code (cmdid : Int) (w : List (Bool × List Ack)) :
    ∀ (r : Int × Option Ack) (a : Ack),
      waitLoop_inprogress cmdid w = Except.ok r → r.2 = some a →
      a.ack ≠ SAL__CMD_ACK := by
  induction w with
  | nil =>
      intro r a h h2
      simp only [waitLoop_inprogress, Except.ok.injEq] at h
      rw [← h] at h2
      simp at h2
  | cons p rest ih =>
      intro r a h h2
      obtain ⟨got, hist⟩ := p
      simp only [waitLoop_inprogress] at h
      split at h
      · split at h
        · exact absurd h (by simp)
        · rename_i b hL
          split at h
          · rename_i hb
            rw [Except.ok.injEq] at h
            rw [← h] at h2
            simp only at h2
            rw [Option.some.injEq] at h2
            rw [← h2]
            exact hb
          · exact ih r a h h2
      · exact ih r a h h2

/-- When every wakeup of the trace only ever shows ack code
`SAL__CMD_ACK`, the in-progress wait loop runs the whole trace and
returns the timeout sentinel. -/
theorem waitLoop_inprogress_timeout (cmdid : Int) (w : List (Bool × List Ack))
    (hw : ∀ p ∈ w, p.1 = true → p.2 ≠ [] ∧ ∀ a ∈ p.2, a.ack = SAL__CMD_ACK) :
    waitLoop_inprogress cmdid w = Except.ok (-1, none) := by
  induction w with
  | nil => rfl
  | cons p rest ih =>
      obtain ⟨got, hist⟩ := p
      have hrest : ∀ p ∈ rest, p.1 = true → p.2 ≠ [] ∧ ∀ a ∈ p.2, a.ack = SAL__CMD_ACK :=
        fun q hq => hw q (List.mem_cons_of_mem _ hq)
      cases got with
      | false => exact ih hrest
      | true =>
          obtain ⟨hne, hall⟩ := hw (true, hist) (List.mem_cons_self _ _) rfl
          cases hL : hist.getLast? with
          | none => exact absurd (List.getLast?_eq_none_iff.mp hL) hne
          | some b =>
              have hb : b.ack = SAL__CMD_ACK := hall b (List.mem_of_getLast?_eq_some hL)
              simp only [waitLoop_inprogress, if_true]
              rw [hL]
              show (if b.ack ≠ SAL__CMD_ACK then Except.ok (cmdid, some b)
                    else waitLoop_inprogress cmdid rest) = Except.ok (-1, none)
              rw [if_neg (fun hc => hc hb)]
              exact ih hrest

/-- Claim C1 (amended): the completion wait keeps blocking exactly while
the most recent observed ack code is `SAL__CMD_ACK` or
`SAL__CMD_INPROGRESS`; every ack it returns as the final answer has a
code that differs from both.  (`SAL__CMD_NOACK` is NOT in the blocking
set, so a NOACK ack is treated as terminal and can be the final
answer.) -/
theorem waitForCompletion_final_code (reg : Registry) (cmdid : Int)
    (wakeups : List (Bool × List Ack)) (r : Int × Option Ack) (a : Ack)
    (h : waitForCompletion reg cmdid wakeups = Except.ok r) (h2 : r.2 = some a) :
    a.ack ≠ SAL__CMD_ACK ∧ a.ack ≠ SAL__CMD_INPROGRESS := by
  simp only [waitForCompletion] at h
  split at h
  · exact absurd h (by simp)
  · split at h
    · rename_i b hL
      split at h
      · rename_i hb
        rw [Except.ok.injEq] at h
        rw [← h] at h2
        simp only at h2
        rw [Option.some.injEq] at h2
        rw [← h2]
        exact hb
      · exact waitLoop_completion_ok_code cmdid wakeups r a h h2
    · exact waitLoop_completion_ok_code cmdid wakeups r a h h2

/-- Claim C1 counterexample: after registering id 1 and observing a
single ack whose code is `SAL__CMD_NOACK`, `waitForCompletion` returns
that NOACK ack as the final answer of the wait (it does not keep
blocking), refuting the claim that a NOACK ack is never returned as the
final answer. -/
theorem waitForCompletion_noack_counterexample :
    waitForCompletion
        (run_observe (send_Command_register emptyRegistry 1 "enable") 1
          { ack := SAL__CMD_NOACK, error := 0, result := "not acked" })
        1 []
      = Except.ok (1, some { ack := SAL__CMD_NOACK, error := 0, result := "not acked" }) := by
  rfl

/-- Concrete instantiation of `waitForCompletion_final_code`: id 2 with
an observed `SAL__CMD_COMPLETE` ack. -/
theorem waitForCompletion_final_code_witness :
    SAL__CMD_COMPLETE ≠ SAL__CMD_ACK ∧ SAL__CMD_COMPLETE ≠ SAL__CMD_INPROGRESS :=
  waitForCompletion_final_code
    (run_observe (send_Command_register emptyRegistry 2 "enable") 2
      { ack := SAL__CMD_COMPLETE, error := 0, result := "Done : OK" })
    2 [] (2, some { ack := SAL__CMD_COMPLETE, error := 0, result := "Done : OK" })
    { ack := SAL__CMD_COMPLETE, error := 0, result := "Done : OK" } rfl rfl

/-- Claim C2: calling either wait with a command id that was never
registered does NOT report the unknown id non-fatally: the `IOError` is
constructed but never raised, and both waits then terminate with an
unhandled `KeyError` raised while subscripting `cmd_responses[cmdid]`
in the following debug-log line. -/
theorem waitForCompletion_unknown_id_keyError :
    waitForCompletion emptyRegistry 42 [] = Except.error PyError.keyError ∧
    waitForInProgress emptyRegistry 42 [] = Except.error PyError.keyError :=
  ⟨rfl, rfl⟩

/-- Claim C3 counterexample: the static matrix allows STANDBY (index 1)
to enter FAULT (index 4), and does not allow FAULT back to STANDBY, so
the claim as stated is false. -/
theorem state_matrix_fault_counterexample :
    state_matrix 1 4 = true ∧ state_matrix 4 1 = false ∧ ¬ C3_claim_prop := by
  refine ⟨rfl, rfl, fun h => absurd h.2.2.1 ?_⟩
  decide

/-- Claim C3 (amended): in the static matrix, FAULT is reachable from
STANDBY, DISABLED and ENABLED; no transition leaves FAULT other than
staying in FAULT; and no state other than STANDBY, DISABLED, ENABLED
(and FAULT itself) can enter FAULT. -/
theorem state_matrix_fault_amended :
    state_matrix 1 4 = true ∧ state_matrix 2 4 = true ∧ state_matrix 3 4 = true ∧
    (∀ j : Fin 7, state_matrix 4 j.val = true → j.val = 4) ∧
    (∀ i : Fin 7, state_matrix i.val 4 = true →
      i.val = 1 ∨ i.val = 2 ∨ i.val = 3 ∨ i.val = 4) := by
  decide

/-- Claim C4: whenever the receiver loop accepts a command with a
positive command id, the first ack it emits for that id is the
non-terminal received `SAL__CMD_ACK`; and when the previous execution
thread is still alive it emits exactly the received ack followed by a
`SAL__CMD_NOPERM` ack and starts no new execution. -/
theorem run_command_iter_received_first (busy : Bool) (cmdId : Int)
    (cOMMAND : String) (res : ExecResult) (h : cmdId > 0) :
    ((run_command_iter busy cmdId cOMMAND res).1.head? =
      some { ack := SAL__CMD_ACK, error := 0, result := "Command received : OK" }) ∧
    (busy = true →
      run_command_iter busy cmdId cOMMAND res =
        ([{ ack := SAL__CMD_ACK, error := 0, result := "Command received : OK" },
          { ack := SAL__CMD_NOPERM, error := -1,
            result := "Still replying to a previous command!" }],
         false)) := by
  unfold run_command_iter
  rw [if_pos h]
  cases busy with
  | true => exact ⟨rfl, fun _ => rfl⟩
  | false => exact ⟨rfl, fun hb => nomatch hb⟩

/-- Concrete instantiation of `run_command_iter_received_first`: a busy
controller accepting command id 5. -/
theorem run_command_iter_received_first_witness :
    ((run_command_iter true 5 "START" (ExecResult.ok 0 "DONE")).1.head? =
      some { ack := SAL__CMD_ACK, error := 0, result := "Command received : OK" }) ∧
    (true = true →
      run_command_iter true 5 "START" (ExecResult.ok 0 "DONE") =
        ([{ ack := SAL__CMD_ACK, error := 0, result := "Command received : OK" },
          { ack := SAL__CMD_NOPERM, error := -1,
            result := "Still replying to a previous command!" }],
         false)) :=
  run_command_iter_received_first true 5 "START" (ExecResult.ok 0 "DONE") (by decide)

/-- Claim C5: every execution dispatched by `reply_to_transition` first
sends `SAL__CMD_INPROGRESS`; a state-transition rejection yields a
terminal `SAL__CMD_NOPERM` ack with the fixed message; any other
exception yields a terminal `SAL__CMD_FAILED` ack whose message contains
the exception class name and the command name; a normal return
`(err, message)` yields a terminal `SAL__CMD_COMPLETE` ack carrying
exactly that pair; and (the function being total over every outcome of
`execute_command`) no exception escapes. -/
theorem reply_to_transition_acks (cOMMAND : String) (res : ExecResult) :
    ((reply_to_transition cOMMAND res).head? =
      some { ack := SAL__CMD_INPROGRESS, error := 0, result := "Starting: OK" }) ∧
    (∀ err message, res = ExecResult.ok err message →
      reply_to_transition cOMMAND res =
        [{ ack := SAL__CMD_INPROGRESS, error := 0, result := "Starting: OK" },
         { ack := SAL__CMD_COMPLETE, error := err, result := message }]) ∧
    (res = ExecResult.stateTransitionExc →
      reply_to_transition cOMMAND res =
        [{ ack := SAL__CMD_INPROGRESS, error := 0, result := "Starting: OK" },
         { ack := SAL__CMD_NOPERM, error := 1, result := "State transition not allowed." }]) ∧
    (∀ className, res = ExecResult.otherExc className →
      reply_to_transition cOMMAND res =
        [{ ack := SAL__CMD_INPROGRESS, error := 0, result := "Starting: OK" },
         { ack := SAL__CMD_FAILED, error := 1,
           result := className ++ " exception occurred when running " ++ cOMMAND ++ "." }] ∧
      ∃ u v w : List Char,
        (className ++ " exception occurred when running " ++ cOMMAND ++ ".").data =
          u ++ className.data ++ v ++ cOMMAND.data ++ w) ∧
    (∀ a ∈ (reply_to_transition cOMMAND res).tail,
      a.ack ≠ SAL__CMD_ACK ∧ a.ack ≠ SAL__CMD_INPROGRESS) := by
  refine ⟨?_, ?_, ?_, ?_, ?_⟩
  · cases res <;> rfl
  · intro err message hres
    rw [hres]
    rfl
  · intro hres
    rw [hres]
    rfl
  · intro className hres
    rw [hres]
    refine ⟨rfl, [], (" exception occurred when running " : String).data, ("." : String).data, ?_⟩
    simp [String.data_append]
  · intro a ha
    cases res with
    | ok err message =>
        simp only [reply_to_transition, List.tail_cons, List.mem_singleton] at ha
        rw [ha]
        exact ⟨show SAL__CMD_COMPLETE ≠ SAL__CMD_ACK by decide,
               show SAL__CMD_COMPLETE ≠ SAL__CMD_INPROGRESS by decide⟩
    | stateTransitionExc =>
        simp only [reply_to_transition, List.tail_cons, List.mem_singleton] at ha
        rw [ha]
        exact ⟨show SAL__CMD_NOPERM ≠ SAL__CMD_ACK by decide,
               show SAL__CMD_NOPERM ≠ SAL__CMD_INPROGRESS by decide⟩
    | otherExc className =>
        simp only [reply_to_transition, List.tail_cons, List.mem_singleton] at ha
        rw [ha]
        exact ⟨show SAL__CMD_FAILED ≠ SAL__CMD_ACK by decide,
               show SAL__CMD_FAILED ≠ SAL__CMD_INPROGRESS by decide⟩

/-- Concrete instantiation of `reply_to_transition_acks`: a
`RuntimeError` raised while running START yields the INPROGRESS ack
followed by the FAILED ack naming the exception class and the command. -/
theorem reply_to_transition_acks_witness :
    reply_to_transition "START" (ExecResult.otherExc "RuntimeError") =
      [{ ack := SAL__CMD_INPROGRESS, error := 0, result := "Starting: OK" },
       { ack := SAL__CMD_FAILED, error := 1,
         result := "RuntimeError" ++ " exception occurred when running " ++ "START" ++ "." }] ∧
    ∃ u v w : List Char,
      ("RuntimeError" ++ " exception occurred when running " ++ "START" ++ ".").data =
        u ++ ("RuntimeError" : String).data ++ v ++ ("START" : String).data ++ w :=
  (reply_to_transition_acks "START" (ExecResult.otherExc "RuntimeError")).2.2.2.1
    "RuntimeError" rfl

/-- Claim C6: for a registered id whose recorded ack codes never leave
`{SAL__CMD_ACK, SAL__CMD_INPROGRESS}` (including the case of no acks at
all), `waitForCompletion` runs out its timeout window and returns the
sentinel `(-1, ())` without raising; `waitForInProgress` behaves the same
when only `SAL__CMD_ACK` codes arrive. -/
theorem wait_timeout_sentinel (reg : Registry) (cmdid : Int) (entry : Entry)
    (wakeups : List (Bool × List Ack)) (hreg : reg cmdid = some entry) :
    ((∀ a ∈ entry.ack, a.ack = SAL__CMD_ACK ∨ a.ack = SAL__CMD_INPROGRESS) →
     (∀ p ∈ wakeups, p.1 = true → p.2 ≠ [] ∧
        ∀ a ∈ p.2, a.ack = SAL__CMD_ACK ∨ a.ack = SAL__CMD_INPROGRESS) →
     waitForCompletion reg cmdid wakeups = Except.ok (-1, none)) ∧
    ((∀ a ∈ entry.ack, a.ack = SAL__CMD_ACK) →
     (∀ p ∈ wakeups, p.1 = true → p.2 ≠ [] ∧ ∀ a ∈ p.2, a.ack = SAL__CMD_ACK) →
     waitForInProgress reg cmdid wakeups = Except.ok (-1, none)) := by
  constructor
  · intro hhist hw
    simp only [waitForCompletion]
    rw [hreg]
    dsimp only
    split
    · rename_i b hL
      split
      · rename_i hb
        exact (((hhist b (List.mem_of_getLast?_eq_some hL)).elim hb.1 hb.2).elim)
      · exact waitLoop_completion_timeout cmdid wakeups hw
    · exact waitLoop_completion_timeout cmdid wakeups hw
  · intro hhist hw
    simp only [waitForInProgress]
    rw [hreg]
    dsimp only
    split
    · rename_i b hL
      split
      · rename_i hb
        exact ((hb (hhist b (List.mem_of_getLast?_eq_some hL))).elim)
      · exact waitLoop_inprogress_timeout cmdid wakeups hw
    · exact waitLoop_inprogress_timeout cmdid wakeups hw

/-- Concrete instantiation of `wait_timeout_sentinel`: id 7 with one
recorded received-`SAL__CMD_ACK` ack and one wakeup that only ever shows
`SAL__CMD_ACK` / `SAL__CMD_INPROGRESS` codes. -/
theorem wait_timeout_sentinel_witness :
    waitForCompletion
        (run_observe (send_Command_register emptyRegistry 7 "enable") 7
          { ack := SAL__CMD_ACK, error := 0, result := "ok" })
        7
        [(true, [{ ack := SAL__CMD_ACK, error := 0, result := "ok" },
                 { ack := SAL__CMD_INPROGRESS, error := 0, result := "Starting: OK" }]),
         (false, [])]
      = Except.ok (-1, none) :=
  (wait_timeout_sentinel
      (run_observe (send_Command_register emptyRegistry 7 "enable") 7
        { ack := SAL__CMD_ACK, error := 0, result := "ok" })
      7 { cmd := "enable", ack := [{ ack := SAL__CMD_ACK, error := 0, result := "ok" }],
          event := true }
      [(true, [{ ack := SAL__CMD_ACK, error := 0, result := "ok" },
               { ack := SAL__CMD_INPROGRESS, error := 0, result := "Starting: OK" }]),
       (false, [])]
      rfl).1 (by decide) (by decide)

/-- Claim C7: registering a command id (`send_Command`) and then
observing an ack with a code outside `{SAL__CMD_ACK, SAL__CMD_INPROGRESS}`
for it makes a subsequent `waitForCompletion` return immediately --
independent of the trace of loop iterations the timeout window would
allow, including the empty one -- with the command id and exactly that
ack triple. -/
theorem waitForCompletion_terminal_immediate (reg : Registry) (cmdid : Int)
    (cmd : String) (a : Ack) (wakeups : List (Bool × List Ack))
    (h1 : a.ack ≠ SAL__CMD_ACK) (h2 : a.ack ≠ SAL__CMD_INPROGRESS) :
    waitForCompletion (run_observe (send_Command_register reg cmdid cmd) cmdid a)
      cmdid wakeups = Except.ok (cmdid, some a) := by
  have hentry : (run_observe (send_Command_register reg cmdid cmd) cmdid a) cmdid
      = some { cmd := cmd, ack := [a], event := true } := by
    simp [run_observe, send_Command_register]
  simp only [waitForCompletion]
  rw [hentry]
  dsimp only
  split
  · rename_i b hL
    simp only [List.getLast?_singleton, Option.some.injEq] at hL
    rw [← hL]
    rw [if_pos ⟨h1, h2⟩]
  · rename_i hL
    simp at hL

/-- Concrete instantiation of `waitForCompletion_terminal_immediate`:
id 3 with an observed `SAL__CMD_ABORTED` ack and an empty wait trace. -/
theorem waitForCompletion_terminal_immediate_witness :
    waitForCompletion
        (run_observe (send_Command_register emptyRegistry 3 "enable") 3
          { ack := SAL__CMD_ABORTED, error := 0, result := "aborted" })
        3 []
      = Except.ok (3, some { ack := SAL__CMD_ABORTED, error := 0, result := "aborted" }) :=
  waitForCompletion_terminal_immediate emptyRegistry 3 "enable"
    { ack := SAL__CMD_ABORTED, error := 0, result := "aborted" } [] (by decide) (by decide)

/-- Claim C8: delivering an ack for a registered id A appends it to A's
history and sets A's event, and leaves the entry of every other id B
untouched (history and event alike), so observing an ack for A never
unblocks a waiter on B. -/
theorem run_observe_frame (reg : Registry) (A : Int) (entryA : Entry) (a : Ack)
    (h : reg A = some entryA) :
    (run_observe reg A a) A
        = some { cmd := entryA.cmd, ack := entryA.ack ++ [a], event := true } ∧
    ∀ B : Int, B ≠ A → (run_observe reg A a) B = reg B := by
  constructor
  · simp [run_observe, h]
  · intro B hB
    simp [run_observe, h, hB]

/-- Concrete instantiation of `run_observe_frame`: two registered ids 1
and 2; observing an ack for id 1 leaves the entry of id 2 unchanged. -/
theorem run_observe_frame_witness :
    (run_observe
        (send_Command_register (send_Command_register emptyRegistry 1 "enable") 2 "disable") 1
        { ack := SAL__CMD_ACK, error := 0, result := "ok" }) 2
      = (send_Command_register (send_Command_register emptyRegistry 1 "enable") 2 "disable") 2 :=
  (run_observe_frame
      (send_Command_register (send_Command_register emptyRegistry 1 "enable") 2 "disable") 1
      { cmd := "enable", ack := [], event := false }
      { ack := SAL__CMD_ACK, error := 0, result := "ok" } rfl).2 2 (by decide)

/-- Claim C9: constructing a `DDSController` with a topic supplied but
`command = None` passes the both-are-`None` guard and then raises
`AttributeError` from `self.command.upper()` on `None`, for every topic
string and subsystem tag. -/
theorem DDSController_init_topic_only (subsystem_tag t : String) :
    DDSController_init subsystem_tag none (some t) = Except.error PyError.attributeError := by
  simp [DDSController_init]

/-- Claim C10: the state handlers named `DISABLED` and `ENABLED` are not
keys of `state_enumeration` (which has `DISABLE` and `ENABLE` instead),
so the `SummaryState` lookup of `send_logEvent` raises `KeyError` for
both. -/
theorem send_logEvent_SummaryState_keyError :
    send_logEvent_SummaryState DisabledState_name = Except.error PyError.keyError ∧
    send_logEvent_SummaryState EnabledState_name = Except.error PyError.keyError :=
  ⟨rfl, rfl⟩

end Salpytools
